import Mathlib

/-!
Verification of the reservation admission-control engine of the
`reservation-app` repository (backend in `src/backend/src`).

Shallow embedding conventions:
* A JavaScript `Date` value is an `Int`: milliseconds since the Unix epoch.
* A calendar date string `"YYYY-MM-DD"` is an `Int`: its day number (days
  since 1970-01-01).  `parseDateUTC` and `formatDateLocal` from
  `src/backend/src/lib/serialize.ts` become exact arithmetic on these
  numbers (`new Date(Date.UTC(y,m-1,d))` is the UTC midnight of the day,
  and the UTC getters read off the UTC calendar day of a timestamp).
* A wall-clock time string `"HH:MM"` is a `Nat`: minutes since midnight.
  For well-formed `HH:MM` strings, JavaScript's lexicographic string
  comparison coincides with numeric comparison of these minute counts.
* The server's time zone is a parameter `tz : Int`, the offset east of UTC
  in minutes (taken constant: daylight-saving transitions are not
  modelled).  `new Date(y, m-1, d, h, min)` built from local components
  denotes the instant `day*msPerDay + minutes*msPerMin - tz*msPerMin`.
* JavaScript floating-point division is modelled by exact `ℚ` division;
  the persistence layer (Prisma) is modelled by a `Db` state record, and
  each service method becomes a pure function from `Db` (plus the values
  the real code reads from the environment: current time, fresh ids) to
  its result and the updated `Db`.
-/

def msPerMin : Int := 60000

def msPerHour : Int := 3600000

def msPerDay : Int := 86400000

/-- `serialize.ts` `parseDateUTC`: the UTC midnight instant of a calendar
day (`new Date(Date.UTC(year, month - 1, day, 0, 0, 0))`). -/
def parseDateUTC (day : Int) : Int := day * msPerDay

/-- `serialize.ts` `formatDateLocal`: the UTC calendar day containing a
timestamp, read with the UTC getters (`getUTCFullYear` etc.). -/
def formatDateLocal (ms : Int) : Int := Int.fdiv ms msPerDay

/-- `getUTCDay()` of a day number: 1970-01-01 was a Thursday (= 4). -/
def dayOfWeekUTC (day : Int) : Int := (day + 4).emod 7

/-- The instant denoted by local wall-clock components `(day, minutes)` on
a server whose local offset is `tz` minutes east of UTC.  This is what
`new Date(y, m-1, d, 12, 0, 0)` followed by `setHours(h, min, 0, 0)`
produces (the noon anchor keeps the civil day fixed). -/
def mkLocalDateTime (tz day : Int) (timeMin : Nat) : Int :=
  day * msPerDay + (timeMin : Int) * msPerMin - tz * msPerMin

inductive ReservationStatus where
  | PENDING | CONFIRMED | CANCELLED | SEATED | NO_SHOW
deriving DecidableEq, Repr

inductive ReservationSource where
  | WEB | IN_HOUSE | PHONE
deriving DecidableEq, Repr

inductive WaitlistStatus where
  | WAITING | PROMOTED | EXPIRED
deriving DecidableEq, Repr

/-- Prisma model `Reservation` (`prisma/migrations/.../migration.sql`).
`date` is a `@db.Date` column: always a UTC-midnight timestamp. -/
structure Reservation where
  id : Nat
  guestName : String
  email : String
  phone : String
  date : Int
  time : Nat
  partySize : Int
  status : ReservationStatus
  source : ReservationSource
  notes : Option String
  cancelToken : Nat
  createdAt : Int
deriving DecidableEq, Repr

/-- Prisma model `WaitlistEntry`. -/
structure WaitlistEntry where
  id : Nat
  guestName : String
  email : Option String
  phone : Option String
  date : Int
  time : Nat
  partySize : Int
  status : WaitlistStatus
  linkedReservationId : Option Nat
  createdAt : Int
  promotedAt : Option Int
deriving DecidableEq, Repr

/-- Prisma model `OperatingHours` (one entry per weekday). -/
structure OperatingHours where
  dayOfWeek : Int
  isClosed : Bool
  openTime : Nat
  closeTime : Nat
deriving DecidableEq, Repr

/-- Prisma model `SpecialDate`.  `date` is stored as a date string and
compared for equality with the request's date string, hence a day
number here.  `customOpenTime`/`customCloseTime` are nullable; the code
guards on their truthiness, modelled by `Option`. -/
structure SpecialDate where
  date : Int
  isClosed : Bool
  customOpenTime : Option Nat
  customCloseTime : Option Nat
deriving DecidableEq, Repr

/-- Prisma model `RestaurantSettings` together with its relations, as
returned by `SettingsService.getSettings`. -/
structure RestaurantSettings where
  diningRoomSeats : Int
  barSeats : Int
  outdoorSeats : Int
  maxReservationsPerSlot : Int
  turnoverMinutes : Int
  autoAcceptMaxPartySize : Int
  requireDepositMinPartySize : Int
  maxDaysInAdvance : Int
  minHoursInAdvance : Int
  autoWaitlistThreshold : ℚ
  autoPendingThreshold : ℚ
  largePartyNeedsApproval : Bool
  largePartyMinSize : Int
  allowSameDayBooking : Bool
  sameDayCutoffHour : Int
  operatingHours : List OperatingHours
  specialDates : List SpecialDate
deriving DecidableEq, Repr

/-- The persistent store visible to the services. -/
structure Db where
  reservations : List Reservation
  waitlist : List WaitlistEntry
deriving DecidableEq, Repr

/-- `settings.diningRoomSeats + settings.barSeats + settings.outdoorSeats`,
computed identically in `evaluateReservation` and `calculateCapacity`. -/
def totalCapacity (s : RestaurantSettings) : Int :=
  s.diningRoomSeats + s.barSeats + s.outdoorSeats

/-- `EvaluationService.isTimeInRange`:
`time >= openTime && time <= closeTime` (lexicographic comparison of
`HH:MM` strings = numeric comparison of minute counts). -/
def isTimeInRange (time openTime closeTime : Nat) : Bool :=
  openTime ≤ time && time ≤ closeTime

/-- `EvaluationService.checkOperatingHours`: a special date for the exact
request date is consulted first (closure, then custom hours when both
ends are present); otherwise the weekday row found via
`parseDateUTC(date).getUTCDay()` applies. -/
def checkOperatingHours (date : Int) (time : Nat) (s : RestaurantSettings) : Bool :=
  let regular :=
    match s.operatingHours.find? (fun h => h.dayOfWeek == dayOfWeekUTC (formatDateLocal (parseDateUTC date))) with
    | none => false
    | some h => if h.isClosed then false else isTimeInRange time h.openTime h.closeTime
  match s.specialDates.find? (fun sd => sd.date == date) with
  | some sd =>
      if sd.isClosed then false
      else
        match sd.customOpenTime, sd.customCloseTime with
        | some o, some c => isTimeInRange time o c
        | _, _ => regular
  | none => regular

/-- `EvaluationService.calculateHoursInAdvance`: the requested local
date-time (noon-anchored local parse, then `setHours`) minus the current
instant, in hours. -/
def calculateHoursInAdvance (tz : Int) (date : Int) (time : Nat) (now : Int) : ℚ :=
  ((mkLocalDateTime tz date time - now : Int) : ℚ) / (msPerHour : ℚ)

/-- Result record of `EvaluationService.calculateCapacity`. -/
structure CapacitySnapshot where
  utilization : ℚ
  reservationCount : Int
  totalGuests : Int
deriving DecidableEq, Repr

/-- `EvaluationService.calculateCapacity`: all `CONFIRMED` reservations
stored for the date (`parseDateUTC date`), filtered to those whose time
lies within `turnoverMinutes` of the request (inclusive). -/
def calculateCapacity (db : Db) (date : Int) (time : Nat) (s : RestaurantSettings) : CapacitySnapshot :=
  let reservations := db.reservations.filter
    (fun r => r.date == parseDateUTC date && r.status == ReservationStatus.CONFIRMED)
  let relevant := reservations.filter
    (fun r => ((time : Int) - (r.time : Int)).natAbs ≤ s.turnoverMinutes)
  let reservationCount : Int := relevant.length
  let totalGuests : Int := relevant.foldl (fun sum r => sum + r.partySize) (0 : Int)
  { utilization := (totalGuests : ℚ) / ((totalCapacity s : Int) : ℚ)
    reservationCount := reservationCount
    totalGuests := totalGuests }

inductive EvaluationDecision where
  | AUTO_CONFIRM | PENDING | WAITLIST | REJECT
deriving DecidableEq, Repr

structure EvaluationMetadata where
  currentCapacityPercent : ℚ
  reservationsInSlot : Int
  totalGuests : Int
  hoursInAdvance : ℚ
  isWithinOperatingHours : Bool
deriving DecidableEq, Repr

structure EvaluationResult where
  decision : EvaluationDecision
  reason : String
  metadata : EvaluationMetadata
deriving DecidableEq, Repr

structure EvaluationRequest where
  date : Int
  time : Nat
  partySize : Int
deriving DecidableEq, Repr

/-- `EvaluationService.evaluateReservation`
(`src/backend/src/modules/reservations/evaluation.service.ts`): the
ordered rule cascade.  The cut-off rule for same-day bookings is deleted
(commented out) in the source, so it does not appear here. -/
def evaluateReservation (tz now : Int) (db : Db) (s : RestaurantSettings)
    (req : EvaluationRequest) : EvaluationResult :=
  let hoursInAdvance := calculateHoursInAdvance tz req.date req.time now
  let isOpen := checkOperatingHours req.date req.time s
  if isOpen = false then
    { decision := .REJECT
      reason := "Outside operating hours"
      metadata := ⟨0, 0, 0, hoursInAdvance, false⟩ }
  else if hoursInAdvance < (s.minHoursInAdvance : ℚ) then
    let mh := s.minHoursInAdvance
    { decision := .REJECT
      reason := s!"Must book at least {mh} hours in advance"
      metadata := ⟨0, 0, 0, hoursInAdvance, true⟩ }
  else if hoursInAdvance > ((s.maxDaysInAdvance * 24 : Int) : ℚ) then
    let md := s.maxDaysInAdvance
    { decision := .REJECT
      reason := s!"Cannot book more than {md} days ahead"
      metadata := ⟨0, 0, 0, hoursInAdvance, true⟩ }
  else if hoursInAdvance < 24 ∧ s.allowSameDayBooking = false then
    { decision := .REJECT
      reason := "Same-day booking not allowed"
      metadata := ⟨0, 0, 0, hoursInAdvance, true⟩ }
  else if s.largePartyNeedsApproval = true ∧ req.partySize ≥ s.largePartyMinSize then
    let capacity := calculateCapacity db req.date req.time s
    let ps := req.partySize
    { decision := .PENDING
      reason := s!"Large party ({ps} guests) requires manager approval"
      metadata := ⟨capacity.utilization, capacity.reservationCount,
                   capacity.totalGuests, hoursInAdvance, true⟩ }
  else if req.partySize ≥ s.requireDepositMinPartySize then
    let capacity := calculateCapacity db req.date req.time s
    let ps := req.partySize
    { decision := .PENDING
      reason := s!"Party of {ps} requires deposit confirmation"
      metadata := ⟨capacity.utilization, capacity.reservationCount,
                   capacity.totalGuests, hoursInAdvance, true⟩ }
  else if req.partySize > s.autoAcceptMaxPartySize then
    let capacity := calculateCapacity db req.date req.time s
    let ps := req.partySize
    let mx := s.autoAcceptMaxPartySize
    { decision := .PENDING
      reason := s!"Party size ({ps}) exceeds auto-accept limit ({mx})"
      metadata := ⟨capacity.utilization, capacity.reservationCount,
                   capacity.totalGuests, hoursInAdvance, true⟩ }
  else
    let capacity := calculateCapacity db req.date req.time s
    if capacity.reservationCount ≥ s.maxReservationsPerSlot then
      let rc := capacity.reservationCount
      { decision := .WAITLIST
        reason := s!"Time slot is full ({rc} reservations)"
        metadata := ⟨capacity.utilization, capacity.reservationCount,
                     capacity.totalGuests, hoursInAdvance, true⟩ }
    else if capacity.utilization ≥ s.autoWaitlistThreshold then
      let pct := round (capacity.utilization * 100)
      { decision := .WAITLIST
        reason := s!"Capacity at {pct}% - adding to waitlist"
        metadata := ⟨capacity.utilization, capacity.reservationCount,
                     capacity.totalGuests, hoursInAdvance, true⟩ }
    else if capacity.utilization ≥ s.autoPendingThreshold then
      let pct := round (capacity.utilization * 100)
      { decision := .PENDING
        reason := s!"Capacity at {pct}% - requires review"
        metadata := ⟨capacity.utilization, capacity.reservationCount,
                     capacity.totalGuests, hoursInAdvance, true⟩ }
    else if capacity.totalGuests + req.partySize > totalCapacity s then
      let tot := capacity.totalGuests + req.partySize
      let cap := totalCapacity s
      { decision := .WAITLIST
        reason := s!"Would exceed capacity ({tot}/{cap} guests)"
        metadata := ⟨capacity.utilization, capacity.reservationCount,
                     capacity.totalGuests, hoursInAdvance, true⟩ }
    else
      { decision := .AUTO_CONFIRM
        reason := "All requirements met"
        metadata := ⟨capacity.utilization, capacity.reservationCount,
                     capacity.totalGuests, hoursInAdvance, true⟩ }

/-- Modelled from the spec (§4.2 step 1): resolution of the hours that
apply on a date — a `SpecialDate` override takes precedence over the
weekday's `OperatingHours`; `none` means the restaurant is closed that
day.  Used to compare `checkOperatingHours` against the spec's reading. -/
def effectiveHoursSpec (s : RestaurantSettings) (date : Int) : Option (Nat × Nat) :=
  let weekday :=
    match s.operatingHours.find? (fun h => h.dayOfWeek == dayOfWeekUTC date) with
    | none => none
    | some h => if h.isClosed then none else some (h.openTime, h.closeTime)
  match s.specialDates.find? (fun sd => sd.date == date) with
  | some sd =>
      if sd.isClosed then none
      else
        match sd.customOpenTime, sd.customCloseTime with
        | some o, some c => some (o, c)
        | _, _ => weekday
  | none => weekday

/-- Modelled from the spec (§4.2 step 5): the capacity cascade as the
spec words it, operating on a pre-add capacity snapshot; only the final
over-capacity check uses the prospective sum with the new party. -/
def capacityDecisionSpec (s : RestaurantSettings) (cap : CapacitySnapshot)
    (partySize : Int) : EvaluationDecision :=
  if cap.reservationCount ≥ s.maxReservationsPerSlot then .WAITLIST
  else if cap.utilization ≥ s.autoWaitlistThreshold then .WAITLIST
  else if cap.utilization ≥ s.autoPendingThreshold then .PENDING
  else if cap.totalGuests + partySize > totalCapacity s then .WAITLIST
  else .AUTO_CONFIRM

/-- The date reported by `serializeReservation` (`src/backend/src/lib/serialize.ts`)
for a stored `@db.Date` value and the row's `createdAt`.  The source
formats the stored date with `formatDateLocal`, then — when `createdAt`
is present — compares: with `d1`/`d2` the UTC midnights of the two
formatted dates, `dayDiff = round((d2 - d1) / 86400000)` is exactly the
difference of the two day numbers, and when it equals `1` the
`createdAt` date is reported instead of the stored one. -/
def serializeDate (dateMs createdAt : Int) : Int :=
  let formatted := formatDateLocal dateMs
  let createdDateStr := formatDateLocal createdAt
  let dayDiff := createdDateStr - formatted
  if dayDiff = 1 then createdDateStr else formatted

/-- The guest-visible fields produced by `serializeReservation`:
everything is copied verbatim except `date`, which is rendered through
`serializeDate`. -/
structure SerializedReservation where
  id : Nat
  guestName : String
  date : Int
  time : Nat
  partySize : Int
  status : ReservationStatus
deriving DecidableEq, Repr

/-- `serializeReservation` restricted to the fields the claims are about
(`cloned.date` is rewritten, every other field is copied unchanged). -/
def serializeReservation (r : Reservation) : SerializedReservation :=
  { id := r.id
    guestName := r.guestName
    date := serializeDate r.date r.createdAt
    time := r.time
    partySize := r.partySize
    status := r.status }

/-- `config.businessRules` (`src/backend/src/config/index.ts`). -/
structure BusinessRules where
  maxAutoConfirmPartySize : Int
  maxCoversPerTimeSlot : Int
  minNoticeMinutes : Int
  openingTime : Nat
  closingTime : Nat
deriving DecidableEq, Repr

/-- The environment-default business rules: party size 8, 50 covers per
slot, 60 minutes notice, open `"11:00"`, close `"22:00"`. -/
def defaultBusinessRules : BusinessRules :=
  { maxAutoConfirmPartySize := 8
    maxCoversPerTimeSlot := 50
    minNoticeMinutes := 60
    openingTime := 660
    closingTime := 1320 }

/-- `getCoversForTimeSlot`, defined identically in `ReservationService`
and `WaitlistService`: the sum of party sizes of the `CONFIRMED`
reservations stored for exactly this `(date, time)` slot. -/
def getCoversForTimeSlot (db : Db) (dateMs : Int) (time : Nat) : Int :=
  (db.reservations.filter
      (fun r => r.date == dateMs && r.time == time && r.status == ReservationStatus.CONFIRMED)).foldl
    (fun total r => total + r.partySize) (0 : Int)

/-- `WaitlistService.createEntry` input. -/
structure CreateWaitlistInput where
  guestName : String
  email : Option String
  phone : Option String
  date : Int
  time : Nat
  partySize : Int
deriving DecidableEq, Repr

/-- `WaitlistService.createEntry`: inserts a `WAITING` entry. -/
def createEntry (db : Db) (input : CreateWaitlistInput) (now : Int) (freshId : Nat) :
    WaitlistEntry × Db :=
  let e : WaitlistEntry :=
    { id := freshId
      guestName := input.guestName
      email := input.email
      phone := input.phone
      date := input.date
      time := input.time
      partySize := input.partySize
      status := .WAITING
      linkedReservationId := none
      createdAt := now
      promotedAt := none }
  (e, { db with waitlist := db.waitlist ++ [e] })

/-- The patch accepted by `WaitlistService.updateEntry`
(`updateWaitlistSchema`: optional `status`, optional
`linkedReservationId`); absent fields are left unchanged by
`prisma.waitlistEntry.update`. -/
structure WaitlistUpdate where
  status : Option WaitlistStatus
  linkedReservationId : Option Nat
deriving DecidableEq, Repr

def applyWaitlistUpdate (u : WaitlistUpdate) (e : WaitlistEntry) : WaitlistEntry :=
  { e with
    status := u.status.getD e.status
    linkedReservationId :=
      match u.linkedReservationId with
      | some v => some v
      | none => e.linkedReservationId }

/-- `WaitlistService.updateEntry`: unconditional field update of the
entry with the given id (no precondition on its current status). -/
def updateEntry (db : Db) (id : Nat) (u : WaitlistUpdate) :
    Except String (WaitlistEntry × Db) :=
  match db.waitlist.find? (fun e => e.id == id) with
  | none => .error "Record not found"
  | some e =>
      .ok (applyWaitlistUpdate u e,
        { db with waitlist := db.waitlist.map (fun x =>
            if x.id == id then applyWaitlistUpdate u x else x) })

/-- The `WAITING` entries stored for an exact `(date, time)` slot; Prisma
returns them ordered ascending by `createdAt`, modelled by
`List.insertionSort` over this filter in `tryPromoteNext`. -/
def waitingFor (db : Db) (dateMs : Int) (time : Nat) : List WaitlistEntry :=
  db.waitlist.filter
    (fun e => e.date == dateMs && e.time == time && e.status == WaitlistStatus.WAITING)

/-- The `CONFIRMED` reservation `tryPromoteNext` creates from a promoted
entry (tagged in-house, noted as a promotion). -/
def promotedReservation (e : WaitlistEntry) (now : Int) (freshId freshTok : Nat) : Reservation :=
  { id := freshId
    guestName := e.guestName
    email := e.email.getD ""
    phone := e.phone.getD ""
    date := e.date
    time := e.time
    partySize := e.partySize
    status := .CONFIRMED
    source := .IN_HOUSE
    notes := some "Promoted from waitlist"
    cancelToken := freshTok
    createdAt := now }

/-- The update `tryPromoteNext` applies to the promoted entry. -/
def promoteEntryPatch (e : WaitlistEntry) (now : Int) (freshId : Nat) : WaitlistEntry :=
  { e with
    status := .PROMOTED
    linkedReservationId := some freshId
    promotedAt := some now }

structure PromoteResult where
  promoted : Bool
  reservation : Option Reservation
  waitlistEntry : Option WaitlistEntry
deriving DecidableEq, Repr

/-- `WaitlistService.tryPromoteNext`
(`src/backend/src/modules/waitlist/waitlist.service.ts`): scan the
`WAITING` entries for the exact slot in `createdAt` order; the loop
creates a reservation for the first entry that fits within
`maxCoversPerTimeSlot - currentCovers` and returns, so it is the
first-fit search `find?`. -/
def tryPromoteNext (rules : BusinessRules) (db : Db) (dateMs : Int) (time : Nat)
    (now : Int) (freshId freshTok : Nat) : PromoteResult × Db :=
  let waitingEntries :=
    List.insertionSort (fun a b => a.createdAt ≤ b.createdAt) (waitingFor db dateMs time)
  if waitingEntries.isEmpty then (⟨false, none, none⟩, db)
  else
    let currentCovers := getCoversForTimeSlot db dateMs time
    match waitingEntries.find?
        (fun e => currentCovers + e.partySize ≤ rules.maxCoversPerTimeSlot) with
    | none => (⟨false, none, none⟩, db)
    | some e =>
        let r := promotedReservation e now freshId freshTok
        (⟨true, some r, some (promoteEntryPatch e now freshId)⟩,
          { reservations := db.reservations ++ [r]
            waitlist := db.waitlist.map
              (fun x => if x.id == e.id then promoteEntryPatch x now freshId else x) })

/-- `WaitlistService.expireOldEntries`: `updateMany` setting `EXPIRED` on
every `WAITING` entry whose stored `date` timestamp is `lt` the current
instant `new Date()`; returns the affected count. -/
def expireOldEntries (db : Db) (now : Int) : Int × Db :=
  ((db.waitlist.filter (fun e => e.status == WaitlistStatus.WAITING && e.date < now)).length,
    { db with waitlist := db.waitlist.map (fun e =>
        if e.status == WaitlistStatus.WAITING && e.date < now
        then { e with status := .EXPIRED } else e) })

/-- `ReservationService.isWithinOpeningHours`:
`time >= openingTime && time <= closingTime` against the static config. -/
def isWithinOpeningHours (rules : BusinessRules) (time : Nat) : Bool :=
  rules.openingTime ≤ time && time ≤ rules.closingTime

/-- `ReservationService.combineDateAndTime`: `new Date(date)` followed by
`setHours(h, m, 0, 0)` — the local civil day containing the stored
UTC-midnight instant, re-timed to the given local wall-clock minutes. -/
def combineDateAndTime (tz dateMs : Int) (time : Nat) : Int :=
  (Int.fdiv (dateMs + tz * msPerMin) msPerDay) * msPerDay
    + (time : Int) * msPerMin - tz * msPerMin

/-- Result record of `ReservationService.shouldAutoConfirm`. -/
structure AutoConfirmDecision where
  shouldConfirm : Bool
  shouldWaitlist : Bool
  reason : Option String
deriving DecidableEq, Repr

/-- `ReservationService.shouldAutoConfirm`
(`src/backend/src/modules/reservations/reservation.service.ts`): the
config-driven rule chain used by `createReservation` — party size,
static opening hours, minimum notice in minutes, exact-slot covers. -/
def shouldAutoConfirm (rules : BusinessRules) (tz : Int) (db : Db) (dateMs : Int)
    (time : Nat) (partySize : Int) (now : Int) : AutoConfirmDecision :=
  if partySize > rules.maxAutoConfirmPartySize then
    ⟨false, false, some "Party size too large for auto-confirm"⟩
  else if isWithinOpeningHours rules time = false then
    ⟨false, false, some "Requested time outside opening hours"⟩
  else
    let minutesUntilReservation : ℚ :=
      ((combineDateAndTime tz dateMs time - now : Int) : ℚ) / (msPerMin : ℚ)
    if minutesUntilReservation < (rules.minNoticeMinutes : ℚ) then
      ⟨false, false, some "Insufficient advance notice"⟩
    else if getCoversForTimeSlot db dateMs time + partySize > rules.maxCoversPerTimeSlot then
      ⟨false, true, some "Capacity exceeded"⟩
    else
      ⟨true, false, none⟩

/-- The phone normalisation in `createReservation`: eleven extracted
digits are re-rendered `+d (ddd) ddd-dddd`, anything else is passed
through unchanged. -/
def formatPhone (p : String) : String :=
  match p.toList.filter (fun c => c.isDigit) with
  | [a, b, c, d, e, f, g, h, i, j, k] =>
      "+" ++ String.mk [a] ++ " (" ++ String.mk [b, c, d] ++ ") "
        ++ String.mk [e, f, g] ++ "-" ++ String.mk [h, i, j, k]
  | _ => p

structure CreateReservationInput where
  guestName : String
  email : String
  phone : String
  date : Int
  time : Nat
  partySize : Int
  notes : Option String
  source : ReservationSource
deriving DecidableEq, Repr

inductive CreateOutcome where
  | confirmed | pending | waitlisted
deriving DecidableEq, Repr

structure ReservationResult where
  outcome : CreateOutcome
  reservation : Option Reservation
  waitlistEntry : Option WaitlistEntry
  message : String
deriving DecidableEq, Repr

/-- `ReservationService.createReservation`: consults `shouldAutoConfirm`
and either inserts a waitlist entry (`shouldWaitlist`) or persists a
reservation with status `CONFIRMED`/`PENDING`.  There is no error
outcome: every input produces one of the three results. -/
def createReservation (rules : BusinessRules) (tz : Int) (db : Db)
    (input : CreateReservationInput) (now : Int) (freshId freshTok : Nat) :
    ReservationResult × Db :=
  let formattedPhone := formatPhone input.phone
  let decision := shouldAutoConfirm rules tz db input.date input.time input.partySize now
  if decision.shouldWaitlist then
    let (entry, db') := createEntry db
      { guestName := input.guestName
        email := some input.email
        phone := some formattedPhone
        date := input.date
        time := input.time
        partySize := input.partySize } now freshId
    ({ outcome := .waitlisted
       reservation := none
       waitlistEntry := some entry
       message := "Capacity reached. You have been added to the waitlist." }, db')
  else
    let status := if decision.shouldConfirm then ReservationStatus.CONFIRMED
                  else ReservationStatus.PENDING
    let r : Reservation :=
      { id := freshId
        guestName := input.guestName
        email := input.email
        phone := formattedPhone
        date := input.date
        time := input.time
        partySize := input.partySize
        status := status
        source := input.source
        notes := input.notes
        cancelToken := freshTok
        createdAt := now }
    ({ outcome := if status = ReservationStatus.CONFIRMED then .confirmed else .pending
       reservation := some r
       waitlistEntry := none
       message := if status = ReservationStatus.CONFIRMED then "Reservation confirmed!"
                  else "Reservation request received. We will review and get back to you." },
      { db with reservations := db.reservations ++ [r] })

/-- `ReservationService.cancelReservation`: set the status to `CANCELLED`
with no precondition on the current status, then invoke
`tryPromoteNext` on the reservation's `(date, time)` slot.  A missing id
surfaces as a store error (Prisma `P2025`). -/
def cancelReservation (rules : BusinessRules) (db : Db) (id : Nat) (now : Int)
    (freshId freshTok : Nat) : Except String (Reservation × Db) :=
  match db.reservations.find? (fun r => r.id == id) with
  | none => .error "Record not found"
  | some r =>
      let db1 : Db := { db with reservations := db.reservations.map (fun x =>
        if x.id == id then { x with status := ReservationStatus.CANCELLED } else x) }
      let (_, db2) := tryPromoteNext rules db1 r.date r.time now freshId freshTok
      .ok ({ r with status := ReservationStatus.CANCELLED }, db2)

/-- `ReservationService.cancelByToken`: the guest path — distinct
not-found and already-cancelled errors, then delegation to
`cancelReservation`. -/
def cancelByToken (rules : BusinessRules) (db : Db) (token : Nat) (now : Int)
    (freshId freshTok : Nat) : Except String (Reservation × Db) :=
  match db.reservations.find? (fun r => r.cancelToken == token) with
  | none => .error "Reservation not found"
  | some r =>
      if r.status = ReservationStatus.CANCELLED then
        .error "Reservation already cancelled"
      else
        cancelReservation rules db r.id now freshId freshTok

/-- The patch accepted by `updateByToken` (`guestUpdateSchema` in the
public controller: optional date, time, party size, notes); absent
fields are left unchanged by `prisma.reservation.update`. -/
structure GuestUpdate where
  date : Option Int
  time : Option Nat
  partySize : Option Int
  notes : Option String
deriving DecidableEq, Repr

/-- `Object.keys(updates).length > 0` is false exactly when no field of
the validated patch is present. -/
def GuestUpdate.isEmpty (u : GuestUpdate) : Bool :=
  u.date.isNone && u.time.isNone && u.partySize.isNone && u.notes.isNone

def applyGuestUpdate (u : GuestUpdate) (statusPatch : Option ReservationStatus)
    (r : Reservation) : Reservation :=
  { r with
    date := u.date.getD r.date
    time := u.time.getD r.time
    partySize := u.partySize.getD r.partySize
    notes := match u.notes with | some v => some v | none => r.notes
    status := statusPatch.getD r.status }

/-- `ReservationService.updateByToken`: look up by `cancelToken`; when
`setToPending` is on (the public controller always passes `true`) and
the patch is non-empty, the written data additionally sets the status to
`PENDING`. -/
def updateByToken (db : Db) (token : Nat) (u : GuestUpdate) (setToPending : Bool) :
    Except String (Reservation × Db) :=
  match db.reservations.find? (fun r => r.cancelToken == token) with
  | none => .error "Reservation not found"
  | some r =>
      let statusPatch :=
        if setToPending && !u.isEmpty then some ReservationStatus.PENDING else none
      .ok (applyGuestUpdate u statusPatch r,
        { db with reservations := db.reservations.map (fun x =>
            if x.cancelToken == token then applyGuestUpdate u statusPatch x else x) })

theorem int_beq_decide (a b : Int) : (a == b) = decide (a = b) := rfl

theorem nat_beq_decide (a b : Nat) : (a == b) = decide (a = b) := by
  cases h : decide (a = b) <;> simp_all

theorem formatDateLocal_parseDateUTC (d : Int) : formatDateLocal (parseDateUTC d) = d := by
  unfold formatDateLocal parseDateUTC msPerDay
  rw [Int.mul_fdiv_cancel]
  norm_num

/-- The settings row Prisma's schema defaults produce (used as a concrete
fixture): 50/12/20 seats, 8 reservations per slot, 90-minute turnover,
auto-accept ≤ 6, deposit ≥ 8, window 2 h – 60 d, thresholds 0.95/0.85,
large party ≥ 10 needs approval, same-day allowed, and the default
operating hours from `createDefaultSettings` (Sun–Thu 17:00–22:00,
Fri–Sat 17:00–23:00). -/
def defaultSettings : RestaurantSettings :=
  { diningRoomSeats := 50, barSeats := 12, outdoorSeats := 20,
    maxReservationsPerSlot := 8, turnoverMinutes := 90,
    autoAcceptMaxPartySize := 6, requireDepositMinPartySize := 8,
    maxDaysInAdvance := 60, minHoursInAdvance := 2,
    autoWaitlistThreshold := 95/100, autoPendingThreshold := 85/100,
    largePartyNeedsApproval := true, largePartyMinSize := 10,
    allowSameDayBooking := true, sameDayCutoffHour := 20,
    operatingHours :=
      [⟨0, false, 1020, 1320⟩, ⟨1, false, 1020, 1320⟩, ⟨2, false, 1020, 1320⟩,
       ⟨3, false, 1020, 1320⟩, ⟨4, false, 1020, 1320⟩, ⟨5, false, 1020, 1380⟩,
       ⟨6, false, 1020, 1380⟩],
    specialDates := [] }

def emptyDb : Db := ⟨[], []⟩

/-- 2025-12-15 (a Monday) as a day number. -/
def dec15 : Int := 20437

/-- C6: whenever `hoursInAdvance < minHoursInAdvance`, the evaluation
cascade rejects, whatever the capacity situation: either rule 1 already
rejected (still `REJECT`) or rule 2 fires before any capacity check is
reached. -/
theorem evaluate_reject_of_insufficient_advance (tz now : Int) (db : Db)
    (s : RestaurantSettings) (req : EvaluationRequest)
    (h : calculateHoursInAdvance tz req.date req.time now < (s.minHoursInAdvance : ℚ)) :
    (evaluateReservation tz now db s req).decision = .REJECT := by
  unfold evaluateReservation
  by_cases hopen : checkOperatingHours req.date req.time s = false
  · simp [hopen]
  · simp [hopen, h]

/-- Witness for C6: booking the 17:00 slot at 22:00 the same evening is
5 hours late, hence under the 2-hour minimum, and is rejected. -/
theorem evaluate_reject_of_insufficient_advance_witness :
    calculateHoursInAdvance 0 dec15 1020 (dec15 * msPerDay + 1320 * msPerMin)
        < ((defaultSettings.minHoursInAdvance : Int) : ℚ)
      ∧ (evaluateReservation 0 (dec15 * msPerDay + 1320 * msPerMin) emptyDb defaultSettings
          ⟨dec15, 1020, 2⟩).decision = .REJECT :=
  ⟨by norm_num [calculateHoursInAdvance, mkLocalDateTime, msPerDay, msPerMin, msPerHour,
      defaultSettings, dec15],
    evaluate_reject_of_insufficient_advance 0 (dec15 * msPerDay + 1320 * msPerMin) emptyDb
      defaultSettings ⟨dec15, 1020, 2⟩
      (by norm_num [calculateHoursInAdvance, mkLocalDateTime, msPerDay, msPerMin, msPerHour,
        defaultSettings, dec15])⟩

theorem checkOperatingHours_iff_spec (date : Int) (time : Nat) (s : RestaurantSettings) :
    checkOperatingHours date time s = true ↔
      ∃ o c, effectiveHoursSpec s date = some (o, c) ∧ o ≤ time ∧ time ≤ c := by
  unfold checkOperatingHours effectiveHoursSpec
  simp only [formatDateLocal_parseDateUTC]
  cases hsd : s.specialDates.find? (fun sd => sd.date == date) with
  | none =>
      cases hw : s.operatingHours.find? (fun h => h.dayOfWeek == dayOfWeekUTC date) with
      | none => simp
      | some h =>
          cases hcl : h.isClosed <;> simp_all [isTimeInRange, and_assoc]
  | some sd =>
      cases hcl : sd.isClosed with
      | true => simp_all
      | false =>
          cases ho : sd.customOpenTime with
          | some o =>
              cases hc : sd.customCloseTime with
              | some c => simp_all [isTimeInRange, and_assoc]
              | none =>
                  cases hw : s.operatingHours.find? (fun h => h.dayOfWeek == dayOfWeekUTC date) with
                  | none => simp_all
                  | some h => cases hwcl : h.isClosed <;> simp_all [isTimeInRange, and_assoc]
          | none =>
              cases hw : s.operatingHours.find? (fun h => h.dayOfWeek == dayOfWeekUTC date) with
              | none => simp_all
              | some h => cases hwcl : h.isClosed <;> simp_all [isTimeInRange, and_assoc]

theorem evaluate_isWithinOperatingHours (tz now : Int) (db : Db) (s : RestaurantSettings)
    (req : EvaluationRequest) :
    (evaluateReservation tz now db s req).metadata.isWithinOperatingHours
      = checkOperatingHours req.date req.time s := by
  unfold evaluateReservation
  by_cases hopen : checkOperatingHours req.date req.time s = false
  · simp [hopen]
  · rw [Bool.not_eq_false] at hopen
    simp only [hopen, Bool.true_eq_false, if_false]
    by_cases h2 : calculateHoursInAdvance tz req.date req.time now < (s.minHoursInAdvance : ℚ)
    · rw [if_pos h2]
    · rw [if_neg h2]
      by_cases h3 : calculateHoursInAdvance tz req.date req.time now
          > ((s.maxDaysInAdvance * 24 : Int) : ℚ)
      · rw [if_pos h3]
      · rw [if_neg h3]
        by_cases h4 : calculateHoursInAdvance tz req.date req.time now < 24
            ∧ s.allowSameDayBooking = false
        · rw [if_pos h4]
        · rw [if_neg h4]
          by_cases h5 : s.largePartyNeedsApproval = true
              ∧ req.partySize ≥ s.largePartyMinSize
          · rw [if_pos h5]
          · rw [if_neg h5]
            by_cases h6 : req.partySize ≥ s.requireDepositMinPartySize
            · rw [if_pos h6]
            · rw [if_neg h6]
              by_cases h7 : req.partySize > s.autoAcceptMaxPartySize
              · rw [if_pos h7]
              · rw [if_neg h7]
                by_cases h8 : (calculateCapacity db req.date req.time s).reservationCount
                    ≥ s.maxReservationsPerSlot
                · rw [if_pos h8]
                · rw [if_neg h8]
                  by_cases h9 : (calculateCapacity db req.date req.time s).utilization
                      ≥ s.autoWaitlistThreshold
                  · rw [if_pos h9]
                  · rw [if_neg h9]
                    by_cases h10 : (calculateCapacity db req.date req.time s).utilization
                        ≥ s.autoPendingThreshold
                    · rw [if_pos h10]
                    · rw [if_neg h10]
                      by_cases h11 : (calculateCapacity db req.date req.time s).totalGuests
                          + req.partySize > totalCapacity s
                      · rw [if_pos h11]
                      · rw [if_neg h11]

theorem evaluate_closed_rejects (tz now : Int) (db : Db) (s : RestaurantSettings)
    (req : EvaluationRequest)
    (hopen : checkOperatingHours req.date req.time s = false) :
    (evaluateReservation tz now db s req).decision = .REJECT
      ∧ (evaluateReservation tz now db s req).reason = "Outside operating hours" := by
  unfold evaluateReservation
  simp [hopen]

/-- C3 (amended): rule 1 resolves the applicable hours with a
`SpecialDate` override taking precedence over the weekday's
`OperatingHours`, and passes exactly when the requested time lies in the
CLOSED interval `[open, close]` of the resolved hours — the source's
`isTimeInRange` uses `time <= closeTime`, so a request at exactly the
closing time is accepted, not rejected.  Rule 1 rejects with reason
"Outside operating hours" exactly when this check fails, and every
evaluation reports the check's outcome in its metadata (so no other rule
produces this rejection). -/
theorem checkOperatingHours_characterization (tz now : Int) (db : Db)
    (s : RestaurantSettings) (req : EvaluationRequest) :
    (checkOperatingHours req.date req.time s = true ↔
        ∃ o c, effectiveHoursSpec s req.date = some (o, c)
          ∧ o ≤ req.time ∧ req.time ≤ c)
      ∧ ((evaluateReservation tz now db s req).metadata.isWithinOperatingHours
          = checkOperatingHours req.date req.time s)
      ∧ (checkOperatingHours req.date req.time s = false →
          (evaluateReservation tz now db s req).decision = .REJECT
            ∧ (evaluateReservation tz now db s req).reason = "Outside operating hours") :=
  ⟨checkOperatingHours_iff_spec req.date req.time s,
    evaluate_isWithinOperatingHours tz now db s req,
    fun hopen => evaluate_closed_rejects tz now db s req hopen⟩

/-- Counterexample to C3 as stated: Monday 2025-12-15 with weekday hours
17:00–22:00; a request at exactly the closing time 22:00 (minute 1320)
passes the operating-hours check and is auto-confirmed, where the claim
says the half-open interval `[open, close)` must reject it. -/
theorem checkOperatingHours_closing_time_counterexample :
    checkOperatingHours dec15 1320 defaultSettings = true
      ∧ (evaluateReservation 0 (20430 * msPerDay) emptyDb defaultSettings
          ⟨dec15, 1320, 4⟩).decision = .AUTO_CONFIRM := by
  constructor
  · norm_num [checkOperatingHours, formatDateLocal_parseDateUTC, dayOfWeekUTC,
      isTimeInRange, defaultSettings, dec15, List.find?, int_beq_decide]
  · norm_num [evaluateReservation, calculateHoursInAdvance, mkLocalDateTime,
      checkOperatingHours, formatDateLocal_parseDateUTC, dayOfWeekUTC, isTimeInRange,
      calculateCapacity, totalCapacity, defaultSettings, emptyDb, dec15,
      msPerDay, msPerHour, msPerMin, List.find?, int_beq_decide]

/-- Witness for the amended C3 at a concrete input: with the default
settings on 2025-12-15 the resolved hours are 17:00–22:00, and a 19:00
request (minute 1140) lies inside them. -/
theorem checkOperatingHours_characterization_witness :
    checkOperatingHours dec15 1140 defaultSettings = true
      ∧ (∃ o c, effectiveHoursSpec defaultSettings dec15 = some (o, c)
          ∧ o ≤ 1140 ∧ 1140 ≤ c) := by
  have h := checkOperatingHours_characterization 0 (20430 * msPerDay) emptyDb
    defaultSettings ⟨dec15, 1140, 4⟩
  have hco : checkOperatingHours dec15 1140 defaultSettings = true := by
    norm_num [checkOperatingHours, formatDateLocal_parseDateUTC, dayOfWeekUTC,
      isTimeInRange, defaultSettings, dec15, List.find?, int_beq_decide]
  exact ⟨hco, h.1.mp hco⟩

theorem status_beq_decide (a b : ReservationStatus) : (a == b) = decide (a = b) := rfl

theorem wstatus_beq_decide (a b : WaitlistStatus) : (a == b) = decide (a = b) := rfl

/-- C4: when steps 1–4 of the cascade do not short-circuit, the decision
is exactly the spec's capacity cascade — slot cap, then waitlist
threshold, then pending threshold on the PRE-ADD utilization, then the
prospective over-capacity check — taken on the snapshot
`calculateCapacity` computes from the stored (pre-add) reservations,
whose utilization is `totalGuests / totalCapacity`.  (`totalCapacity`
must be positive: the source divides by it.) -/
theorem evaluate_capacity_cascade (tz now : Int) (db : Db) (s : RestaurantSettings)
    (req : EvaluationRequest)
    (_hcap : 0 < totalCapacity s)
    (hopen : checkOperatingHours req.date req.time s = true)
    (h2 : ¬ calculateHoursInAdvance tz req.date req.time now < (s.minHoursInAdvance : ℚ))
    (h3 : ¬ calculateHoursInAdvance tz req.date req.time now
        > ((s.maxDaysInAdvance * 24 : Int) : ℚ))
    (h4 : ¬ (calculateHoursInAdvance tz req.date req.time now < 24
        ∧ s.allowSameDayBooking = false))
    (h5 : ¬ (s.largePartyNeedsApproval = true ∧ req.partySize ≥ s.largePartyMinSize))
    (h6 : ¬ req.partySize ≥ s.requireDepositMinPartySize)
    (h7 : ¬ req.partySize > s.autoAcceptMaxPartySize) :
    (evaluateReservation tz now db s req).decision
        = capacityDecisionSpec s (calculateCapacity db req.date req.time s) req.partySize
      ∧ (calculateCapacity db req.date req.time s).utilization
        = ((calculateCapacity db req.date req.time s).totalGuests : ℚ)
            / ((totalCapacity s : Int) : ℚ) := by
  constructor
  · unfold evaluateReservation capacityDecisionSpec
    simp only [hopen, Bool.true_eq_false, if_false]
    rw [if_neg h2, if_neg h3, if_neg h4, if_neg h5, if_neg h6, if_neg h7]
    by_cases h8 : (calculateCapacity db req.date req.time s).reservationCount
        ≥ s.maxReservationsPerSlot
    · rw [if_pos h8, if_pos h8]
    · rw [if_neg h8, if_neg h8]
      by_cases h9 : (calculateCapacity db req.date req.time s).utilization
          ≥ s.autoWaitlistThreshold
      · rw [if_pos h9, if_pos h9]
      · rw [if_neg h9, if_neg h9]
        by_cases h10 : (calculateCapacity db req.date req.time s).utilization
            ≥ s.autoPendingThreshold
        · rw [if_pos h10, if_pos h10]
        · rw [if_neg h10, if_neg h10]
          by_cases h11 : (calculateCapacity db req.date req.time s).totalGuests
              + req.partySize > totalCapacity s
          · rw [if_pos h11, if_pos h11]
          · rw [if_neg h11, if_neg h11]
  · rfl

/-- Fixture for the C4 witness: two confirmed parties of 35 at 19:00 on
2025-12-15 (70 covers inside the 90-minute turnover window of 19:30). -/
def capacityDb : Db :=
  { reservations :=
      [{ id := 1, guestName := "A", email := "a@x.com", phone := "1", date := parseDateUTC dec15,
         time := 1140, partySize := 35, status := .CONFIRMED, source := .WEB, notes := none,
         cancelToken := 11, createdAt := 20400 * msPerDay },
       { id := 2, guestName := "B", email := "b@x.com", phone := "2", date := parseDateUTC dec15,
         time := 1140, partySize := 35, status := .CONFIRMED, source := .WEB, notes := none,
         cancelToken := 12, createdAt := 20401 * msPerDay }]
    waitlist := [] }

/-- Witness for C4: a 19:30 party of 4 against 70/82 pre-add covers —
utilization 70/82 ≥ 0.85 but < 0.95, so both the code and the spec
cascade say `PENDING` (the threshold fires on the pre-add utilization
even though 74 post-add guests would still fit). -/
theorem evaluate_capacity_cascade_witness :
    (evaluateReservation 0 (20430 * msPerDay) capacityDb defaultSettings
        ⟨dec15, 1170, 4⟩).decision
        = capacityDecisionSpec defaultSettings
            (calculateCapacity capacityDb dec15 1170 defaultSettings) 4
      ∧ capacityDecisionSpec defaultSettings
          (calculateCapacity capacityDb dec15 1170 defaultSettings) 4
        = .PENDING :=
  ⟨(evaluate_capacity_cascade 0 (20430 * msPerDay) capacityDb defaultSettings
      ⟨dec15, 1170, 4⟩
      (by norm_num [totalCapacity, defaultSettings])
      (by norm_num [checkOperatingHours, formatDateLocal_parseDateUTC, dayOfWeekUTC,
        isTimeInRange, defaultSettings, dec15, List.find?, int_beq_decide])
      (by norm_num [calculateHoursInAdvance, mkLocalDateTime, msPerDay, msPerMin, msPerHour,
        defaultSettings, dec15])
      (by norm_num [calculateHoursInAdvance, mkLocalDateTime, msPerDay, msPerMin, msPerHour,
        defaultSettings, dec15])
      (by norm_num [calculateHoursInAdvance, mkLocalDateTime, msPerDay, msPerMin, msPerHour,
        defaultSettings, dec15])
      (by norm_num [defaultSettings])
      (by norm_num [defaultSettings])
      (by norm_num [defaultSettings])).1,
    by norm_num [capacityDecisionSpec, calculateCapacity, capacityDb, totalCapacity,
      parseDateUTC, defaultSettings, dec15, msPerDay, List.filter, int_beq_decide,
      nat_beq_decide, status_beq_decide]⟩

/-- C1 (amended): `createReservation` never consults the Evaluation
Engine and has no error outcome.  For EVERY input — in particular every
input whose evaluation cascade would yield Reject — it persists exactly
one record and returns a normal result, decided solely by its own
config-driven `shouldAutoConfirm` chain: a `WAITING` waitlist entry when
that chain says waitlist, otherwise a reservation stored `CONFIRMED`
when the chain confirms and `PENDING` when it returns neither flag.
Because the chain reads the env config while the cascade reads the DB
settings, a cascade-Reject input may end in any of the three branches —
even auto-confirmed (see the witness). -/
theorem createReservation_never_errors (rules : BusinessRules) (tz : Int)
    (db : Db) (input : CreateReservationInput) (now : Int) (freshId freshTok : Nat) :
    ((shouldAutoConfirm rules tz db input.date input.time
          input.partySize now).shouldWaitlist = true →
        (createReservation rules tz db input now freshId freshTok).1.outcome = .waitlisted
          ∧ (createReservation rules tz db input now freshId freshTok).2.reservations
              = db.reservations
          ∧ ∃ w, (createReservation rules tz db input now freshId freshTok).1.waitlistEntry
                = some w
              ∧ w.status = WaitlistStatus.WAITING
              ∧ (createReservation rules tz db input now freshId freshTok).2.waitlist
                  = db.waitlist ++ [w])
      ∧ ((shouldAutoConfirm rules tz db input.date input.time
            input.partySize now).shouldWaitlist = false →
          (shouldAutoConfirm rules tz db input.date input.time
            input.partySize now).shouldConfirm = true →
          (createReservation rules tz db input now freshId freshTok).1.outcome = .confirmed
            ∧ (createReservation rules tz db input now freshId freshTok).2.waitlist
                = db.waitlist
            ∧ ∃ r, (createReservation rules tz db input now freshId freshTok).1.reservation
                  = some r
                ∧ r.status = ReservationStatus.CONFIRMED
                ∧ (createReservation rules tz db input now freshId freshTok).2.reservations
                    = db.reservations ++ [r])
      ∧ ((shouldAutoConfirm rules tz db input.date input.time
            input.partySize now).shouldWaitlist = false →
          (shouldAutoConfirm rules tz db input.date input.time
            input.partySize now).shouldConfirm = false →
          (createReservation rules tz db input now freshId freshTok).1.outcome = .pending
            ∧ (createReservation rules tz db input now freshId freshTok).2.waitlist
                = db.waitlist
            ∧ ∃ r, (createReservation rules tz db input now freshId freshTok).1.reservation
                  = some r
                ∧ r.status = ReservationStatus.PENDING
                ∧ (createReservation rules tz db input now freshId freshTok).2.reservations
                    = db.reservations ++ [r]) := by
  refine ⟨?_, ?_, ?_⟩
  · intro hw
    unfold createReservation createEntry
    simp only [hw, if_true]
    exact ⟨trivial, trivial, _, rfl, rfl, rfl⟩
  · intro hw hc
    unfold createReservation
    simp only [hw, hc, Bool.false_eq_true, if_false, if_true]
    exact ⟨trivial, trivial, _, rfl, rfl, rfl⟩
  · intro hw hc
    unfold createReservation
    simp only [hw, hc, Bool.false_eq_true, if_false]
    exact ⟨by simp, trivial, _, rfl, rfl, rfl⟩

/-- Counterexample to C1 as stated: a 09:00 request on 2025-12-15 is
outside operating hours, so the Evaluation Engine's cascade yields
`REJECT`; yet `createReservation` on the same input surfaces no error —
it returns a normal `pending` result and persists one `PENDING`
reservation (and no waitlist entry). -/
theorem createReservation_persists_on_reject_counterexample :
    (evaluateReservation 0 (20430 * msPerDay) emptyDb defaultSettings
        ⟨dec15, 540, 4⟩).decision = .REJECT
      ∧ (createReservation defaultBusinessRules 0 emptyDb
          ⟨"G", "g@x.com", "555", parseDateUTC dec15, 540, 4, none, .WEB⟩
          (20430 * msPerDay) 1 7).1.outcome = .pending
      ∧ ((createReservation defaultBusinessRules 0 emptyDb
          ⟨"G", "g@x.com", "555", parseDateUTC dec15, 540, 4, none, .WEB⟩
          (20430 * msPerDay) 1 7).2.reservations.map (fun r => r.status))
          = [ReservationStatus.PENDING]
      ∧ (createReservation defaultBusinessRules 0 emptyDb
          ⟨"G", "g@x.com", "555", parseDateUTC dec15, 540, 4, none, .WEB⟩
          (20430 * msPerDay) 1 7).2.waitlist = [] := by
  refine ⟨?_, ?_, ?_, ?_⟩
  · norm_num [evaluateReservation, calculateHoursInAdvance, mkLocalDateTime,
      checkOperatingHours, formatDateLocal_parseDateUTC, dayOfWeekUTC, isTimeInRange,
      calculateCapacity, totalCapacity, defaultSettings, emptyDb, dec15,
      msPerDay, msPerHour, msPerMin, List.find?, int_beq_decide]
  all_goals
    norm_num [createReservation, shouldAutoConfirm, isWithinOpeningHours,
      combineDateAndTime, getCoversForTimeSlot, createEntry, defaultBusinessRules,
      emptyDb, dec15, parseDateUTC, msPerDay, msPerMin, List.filter] <;> decide

/-- Witness for the amended C1, exercising two branches at concrete
inputs.  The 09:00 request (cascade-Reject: outside the DB operating
hours) takes the neither-flag branch and is persisted `PENDING`; the
12:00 request seven days ahead is ALSO cascade-Reject (DB hours open at
17:00) yet `shouldAutoConfirm` confirms it (env config opens at 11:00),
so it is persisted `CONFIRMED` — no input surfaces an error. -/
theorem createReservation_never_errors_witness :
    (evaluateReservation 0 (20430 * msPerDay) emptyDb defaultSettings
        ⟨dec15, 720, 4⟩).decision = .REJECT
      ∧ ((createReservation defaultBusinessRules 0 emptyDb
          ⟨"G", "g@x.com", "555", parseDateUTC dec15, 540, 4, none, .WEB⟩
          (20430 * msPerDay) 1 7).1.outcome = .pending
        ∧ (createReservation defaultBusinessRules 0 emptyDb
            ⟨"G", "g@x.com", "555", parseDateUTC dec15, 540, 4, none, .WEB⟩
            (20430 * msPerDay) 1 7).2.waitlist = emptyDb.waitlist
        ∧ ∃ r, (createReservation defaultBusinessRules 0 emptyDb
              ⟨"G", "g@x.com", "555", parseDateUTC dec15, 540, 4, none, .WEB⟩
              (20430 * msPerDay) 1 7).1.reservation = some r
            ∧ r.status = ReservationStatus.PENDING
            ∧ (createReservation defaultBusinessRules 0 emptyDb
                ⟨"G", "g@x.com", "555", parseDateUTC dec15, 540, 4, none, .WEB⟩
                (20430 * msPerDay) 1 7).2.reservations = emptyDb.reservations ++ [r])
      ∧ ((createReservation defaultBusinessRules 0 emptyDb
          ⟨"H", "h@x.com", "556", parseDateUTC dec15, 720, 4, none, .WEB⟩
          (20430 * msPerDay) 2 8).1.outcome = .confirmed
        ∧ (createReservation defaultBusinessRules 0 emptyDb
            ⟨"H", "h@x.com", "556", parseDateUTC dec15, 720, 4, none, .WEB⟩
            (20430 * msPerDay) 2 8).2.waitlist = emptyDb.waitlist
        ∧ ∃ r, (createReservation defaultBusinessRules 0 emptyDb
              ⟨"H", "h@x.com", "556", parseDateUTC dec15, 720, 4, none, .WEB⟩
              (20430 * msPerDay) 2 8).1.reservation = some r
            ∧ r.status = ReservationStatus.CONFIRMED
            ∧ (createReservation defaultBusinessRules 0 emptyDb
                ⟨"H", "h@x.com", "556", parseDateUTC dec15, 720, 4, none, .WEB⟩
                (20430 * msPerDay) 2 8).2.reservations = emptyDb.reservations ++ [r]) :=
  ⟨by norm_num [evaluateReservation, calculateHoursInAdvance, mkLocalDateTime,
      checkOperatingHours, formatDateLocal_parseDateUTC, dayOfWeekUTC, isTimeInRange,
      calculateCapacity, totalCapacity, defaultSettings, emptyDb, dec15,
      msPerDay, msPerHour, msPerMin, List.find?, int_beq_decide],
    (createReservation_never_errors defaultBusinessRules 0 emptyDb
        ⟨"G", "g@x.com", "555", parseDateUTC dec15, 540, 4, none, .WEB⟩
        (20430 * msPerDay) 1 7).2.2
      (by norm_num [shouldAutoConfirm, isWithinOpeningHours, combineDateAndTime,
        getCoversForTimeSlot, defaultBusinessRules, emptyDb, dec15, parseDateUTC,
        msPerDay, msPerMin, List.filter])
      (by norm_num [shouldAutoConfirm, isWithinOpeningHours, combineDateAndTime,
        getCoversForTimeSlot, defaultBusinessRules, emptyDb, dec15, parseDateUTC,
        msPerDay, msPerMin, List.filter]),
    (createReservation_never_errors defaultBusinessRules 0 emptyDb
        ⟨"H", "h@x.com", "556", parseDateUTC dec15, 720, 4, none, .WEB⟩
        (20430 * msPerDay) 2 8).2.1
      (by norm_num [shouldAutoConfirm, isWithinOpeningHours, combineDateAndTime,
        getCoversForTimeSlot, defaultBusinessRules, emptyDb, dec15, parseDateUTC,
        msPerDay, msPerMin, List.filter,
        show Int.fdiv 1765756800000 86400000 = 20437 from by decide])
      (by norm_num [shouldAutoConfirm, isWithinOpeningHours, combineDateAndTime,
        getCoversForTimeSlot, defaultBusinessRules, emptyDb, dec15, parseDateUTC,
        msPerDay, msPerMin, List.filter,
        show Int.fdiv 1765756800000 86400000 = 20437 from by decide])⟩

/-- The status the store holds for a waitlist entry id (first match). -/
def statusById (db : Db) (i : Nat) : Option WaitlistStatus :=
  (db.waitlist.find? (fun e => e.id == i)).map (fun e => e.status)

theorem find?_map_preserving (f : WaitlistEntry → WaitlistEntry)
    (p : WaitlistEntry → Bool) (hp : ∀ y, p (f y) = p y) (l : List WaitlistEntry) :
    (l.map f).find? p = (l.find? p).map f := by
  induction l with
  | nil => rfl
  | cons a t ih =>
      cases hpa : p a
      · simp [List.find?_cons, hp, hpa, ih]
      · simp [List.find?_cons, hp, hpa]

theorem find?_id_of_mem_nodup (l : List WaitlistEntry) (e : WaitlistEntry)
    (hnodup : (l.map (fun x => x.id)).Nodup) (hmem : e ∈ l) :
    l.find? (fun x => x.id == e.id) = some e := by
  induction l with
  | nil => cases hmem
  | cons a t ih =>
      simp only [List.map_cons, List.nodup_cons] at hnodup
      rcases List.mem_cons.mp hmem with rfl | hmem'
      · simp [List.find?_cons]
      · have hne : (a.id == e.id) = false := by
          refine beq_eq_false_iff_ne.mpr (fun heq => ?_)
          exact hnodup.1 (heq ▸ List.mem_map_of_mem (fun x => x.id) hmem')
        simp only [List.find?_cons, hne]
        exact ih hnodup.2 hmem'

theorem find?_decomp (p : WaitlistEntry → Bool) (l : List WaitlistEntry)
    (e : WaitlistEntry) (h : l.find? p = some e) :
    ∃ l1 l2, l = l1 ++ e :: l2 ∧ (∀ x ∈ l1, p x = false) ∧ p e = true := by
  induction l with
  | nil => cases h
  | cons a t ih =>
      cases hpa : p a
      · rw [List.find?_cons, hpa] at h
        obtain ⟨l1, l2, hl, hskip, hfit⟩ := ih h
        refine ⟨a :: l1, l2, by simp [hl], ?_, hfit⟩
        intro x hx
        rcases List.mem_cons.mp hx with rfl | hx'
        · exact hpa
        · exact hskip x hx'
      · rw [List.find?_cons, hpa] at h
        obtain rfl := Option.some_inj.mp h
        exact ⟨[], t, rfl, by simp, hpa⟩

/-- C5: with the waiting entries for the slot in `createdAt` order,
`tryPromoteNext` promotes exactly the first entry whose party fits
within `maxCoversPerTimeSlot - currentCovers` for the exact slot: every
earlier entry does not fit and keeps its status (remains `Waiting`),
every other entry is untouched, exactly one `CONFIRMED` reservation is
created from the promoted entry's data, and at most one entry is
promoted per call. -/
theorem tryPromoteNext_first_fit (rules : BusinessRules) (db : Db) (dateMs : Int)
    (time : Nat) (now : Int) (freshId freshTok : Nat) (e : WaitlistEntry)
    (hsorted : List.Sorted (fun a b => a.createdAt ≤ b.createdAt) (waitingFor db dateMs time))
    (hnodup : (db.waitlist.map (fun x => x.id)).Nodup)
    (hfind : (waitingFor db dateMs time).find?
        (fun x => getCoversForTimeSlot db dateMs time + x.partySize
          ≤ rules.maxCoversPerTimeSlot) = some e) :
    (tryPromoteNext rules db dateMs time now freshId freshTok).1.promoted = true
      ∧ (tryPromoteNext rules db dateMs time now freshId freshTok).1.waitlistEntry
          = some (promoteEntryPatch e now freshId)
      ∧ (∃ l1 l2, waitingFor db dateMs time = l1 ++ e :: l2
          ∧ (∀ x ∈ l1, ¬ getCoversForTimeSlot db dateMs time + x.partySize
              ≤ rules.maxCoversPerTimeSlot)
          ∧ getCoversForTimeSlot db dateMs time + e.partySize ≤ rules.maxCoversPerTimeSlot)
      ∧ statusById (tryPromoteNext rules db dateMs time now freshId freshTok).2 e.id
          = some .PROMOTED
      ∧ (∀ x ∈ db.waitlist, x.id ≠ e.id →
          statusById (tryPromoteNext rules db dateMs time now freshId freshTok).2 x.id
            = statusById db x.id)
      ∧ (tryPromoteNext rules db dateMs time now freshId freshTok).2.reservations
          = db.reservations ++ [promotedReservation e now freshId freshTok] := by
  have hmem_w : e ∈ waitingFor db dateMs time := List.mem_of_find?_eq_some hfind
  have hmem : e ∈ db.waitlist := List.mem_of_mem_filter hmem_w
  have hne : (waitingFor db dateMs time).isEmpty = false := by
    cases hw : waitingFor db dateMs time with
    | nil => rw [hw] at hfind; cases hfind
    | cons a t => rfl
  have hidf : ∀ (i : Nat) (y : WaitlistEntry),
      ((if y.id == e.id then promoteEntryPatch y now freshId else y).id == i)
        = (y.id == i) := by
    intro i y
    by_cases hy : y.id = e.id
    · simp [hy, promoteEntryPatch]
    · simp [hy]
  unfold tryPromoteNext
  rw [hsorted.insertionSort_eq]
  simp only [hne, Bool.false_eq_true, if_false, hfind]
  refine ⟨trivial, trivial, ?_, ?_, ?_, trivial⟩
  · obtain ⟨l1, l2, hl, hskip, hfit⟩ := find?_decomp _ _ _ hfind
    exact ⟨l1, l2, hl, fun x hx => by simpa using hskip x hx, by simpa using hfit⟩
  · unfold statusById
    rw [find?_map_preserving (fun z => if z.id == e.id then promoteEntryPatch z now freshId else z)
        (fun z => z.id == e.id) (hidf e.id) db.waitlist,
      find?_id_of_mem_nodup db.waitlist e hnodup hmem]
    simp [promoteEntryPatch]
  · intro x hx hxid
    unfold statusById
    rw [find?_map_preserving (fun z => if z.id == e.id then promoteEntryPatch z now freshId else z)
        (fun z => z.id == x.id) (hidf x.id) db.waitlist]
    cases hfy : db.waitlist.find? (fun z => z.id == x.id) with
    | none => rfl
    | some y =>
        have hyx : y.id = x.id := by
          have := List.find?_some hfy
          simpa using this
        have hyne : (y.id == e.id) = false :=
          beq_eq_false_iff_ne.mpr (by rw [hyx]; exact hxid)
        have hyne2 : ¬ y.id = e.id := by rw [hyx]; exact hxid
        simp [hyne, hyne2]

def entryA : WaitlistEntry :=
  { id := 41, guestName := "A", email := none, phone := none, date := parseDateUTC dec15,
    time := 1140, partySize := 8, status := .WAITING, linkedReservationId := none,
    createdAt := 100, promotedAt := none }

def entryB : WaitlistEntry :=
  { id := 42, guestName := "B", email := none, phone := none, date := parseDateUTC dec15,
    time := 1140, partySize := 2, status := .WAITING, linkedReservationId := none,
    createdAt := 200, promotedAt := none }

/-- Fixture for the C5 witness: 47 confirmed covers at the exact slot,
and waiting entries A (size 8, earlier) and B (size 2, later). -/
def promoteDb : Db :=
  { reservations :=
      [{ id := 31, guestName := "S", email := "s@x.com", phone := "3",
         date := parseDateUTC dec15, time := 1140, partySize := 47,
         status := .CONFIRMED, source := .WEB, notes := none,
         cancelToken := 31, createdAt := 20400 * msPerDay }]
    waitlist := [entryA, entryB] }

theorem tryPromoteNext_first_fit_witness :
    ((waitingFor promoteDb (parseDateUTC dec15) 1140).find?
        (fun x => getCoversForTimeSlot promoteDb (parseDateUTC dec15) 1140 + x.partySize
          ≤ defaultBusinessRules.maxCoversPerTimeSlot) = some entryB)
      ∧ (tryPromoteNext defaultBusinessRules promoteDb (parseDateUTC dec15) 1140
          (20436 * msPerDay) 90 91).1.promoted = true
      ∧ statusById (tryPromoteNext defaultBusinessRules promoteDb (parseDateUTC dec15) 1140
          (20436 * msPerDay) 90 91).2 entryB.id = some .PROMOTED
      ∧ statusById (tryPromoteNext defaultBusinessRules promoteDb (parseDateUTC dec15) 1140
          (20436 * msPerDay) 90 91).2 entryA.id = some .WAITING := by
  have h := tryPromoteNext_first_fit defaultBusinessRules promoteDb (parseDateUTC dec15) 1140
    (20436 * msPerDay) 90 91 entryB (by decide) (by decide) (by decide)
  refine ⟨by decide, h.1, h.2.2.2.1, ?_⟩
  have ha := h.2.2.2.2.1 entryA (by decide) (by decide)
  rw [ha]
  decide

theorem formatDateLocal_eq_ediv (ms : Int) : formatDateLocal ms = ms / 86400000 := by
  unfold formatDateLocal msPerDay
  exact Int.fdiv_eq_ediv _ (by norm_num)

theorem forall₂_map_self (P : WaitlistEntry → WaitlistEntry → Prop)
    (f : WaitlistEntry → WaitlistEntry) (l : List WaitlistEntry)
    (h : ∀ x ∈ l, P x (f x)) : List.Forall₂ P l (l.map f) := by
  induction l with
  | nil => exact List.Forall₂.nil
  | cons a t ih =>
      exact List.Forall₂.cons (h a (List.mem_cons_self a t))
        (ih (fun x hx => h x (List.mem_cons_of_mem a hx)))

/-- C7 (amended): `expireOldEntries` walks the stored entries in place
and marks `EXPIRED` exactly the `WAITING` entries whose stored `date`
timestamp (UTC midnight of the calendar date) is strictly before the
current instant.  Every `WAITING` entry with a strictly past calendar
date is therefore expired, and `WAITING` entries dated in the future (or
any non-`WAITING` entry) are untouched — but an entry dated TODAY is
also expired as soon as the current instant is past the date's UTC
midnight, which is where the claim as stated fails. -/
theorem expireOldEntries_characterization (db : Db) (now : Int) :
    List.Forall₂ (fun e e' : WaitlistEntry =>
        (e.status = .WAITING → e.date < now → e'.status = .EXPIRED)
          ∧ (e.status = .WAITING → formatDateLocal e.date < formatDateLocal now →
              e'.status = .EXPIRED)
          ∧ (e.status = .WAITING → now ≤ e.date → e' = e)
          ∧ (e.status ≠ .WAITING → e' = e))
      db.waitlist (expireOldEntries db now).2.waitlist := by
  unfold expireOldEntries
  apply forall₂_map_self
  intro x _
  refine ⟨?_, ?_, ?_, ?_⟩
  · intro hst hdt
    simp [hst, hdt]
  · intro hst hdd
    have hdt : x.date < now := by
      rw [formatDateLocal_eq_ediv, formatDateLocal_eq_ediv] at hdd
      omega
    simp [hst, hdt]
  · intro hst hge
    have hnd : ¬ x.date < now := not_lt.mpr hge
    simp [hst, hnd]
  · intro hst
    have hb : (x.status == WaitlistStatus.WAITING) = false := by
      cases hs : x.status <;> simp_all
    simp [hb]

/-- A `WAITING` entry for 2025-12-15 itself. -/
def todayEntry : WaitlistEntry :=
  { id := 21, guestName := "T", email := none, phone := none, date := parseDateUTC dec15,
    time := 1140, partySize := 2, status := .WAITING, linkedReservationId := none,
    createdAt := dec15 * msPerDay, promotedAt := none }

/-- Counterexample to C7 as stated: at noon UTC on 2025-12-15, the
`WAITING` entry dated 2025-12-15 — today, not a past calendar date — is
marked `EXPIRED` by `expireOldEntries`, because the comparison is
`date < now` on raw timestamps, not on calendar days. -/
theorem expireOldEntries_today_counterexample :
    todayEntry.status = .WAITING
      ∧ formatDateLocal todayEntry.date = formatDateLocal (dec15 * msPerDay + 12 * msPerHour)
      ∧ ((expireOldEntries ⟨[], [todayEntry]⟩
          (dec15 * msPerDay + 12 * msPerHour)).2.waitlist.map (fun e => e.status))
          = [.EXPIRED] := by
  refine ⟨rfl, by decide, by decide⟩

/-- Fixture for the C7 witness: a `WAITING` entry dated 2025-12-14 (past),
a `WAITING` entry dated 2025-12-16 (future), and a `PROMOTED` entry,
swept at noon UTC on 2025-12-15. -/
def expireDb : Db :=
  { reservations := []
    waitlist :=
      [{ id := 22, guestName := "P", email := none, phone := none,
         date := parseDateUTC (dec15 - 1), time := 1140, partySize := 2,
         status := .WAITING, linkedReservationId := none,
         createdAt := 0, promotedAt := none },
       { id := 23, guestName := "F", email := none, phone := none,
         date := parseDateUTC (dec15 + 1), time := 1140, partySize := 2,
         status := .WAITING, linkedReservationId := none,
         createdAt := 1, promotedAt := none },
       { id := 24, guestName := "D", email := none, phone := none,
         date := parseDateUTC (dec15 - 2), time := 1140, partySize := 2,
         status := .PROMOTED, linkedReservationId := some 90,
         createdAt := 2, promotedAt := some 3 }] }

theorem expireOldEntries_characterization_witness :
    ((expireOldEntries expireDb (dec15 * msPerDay + 12 * msPerHour)).2.waitlist.map
        (fun e => e.status)) = [.EXPIRED, .WAITING, .PROMOTED]
      ∧ List.Forall₂ (fun e e' : WaitlistEntry =>
          (e.status = .WAITING → e.date < (dec15 * msPerDay + 12 * msPerHour) →
              e'.status = .EXPIRED)
            ∧ (e.status = .WAITING → formatDateLocal e.date
                < formatDateLocal (dec15 * msPerDay + 12 * msPerHour) → e'.status = .EXPIRED)
            ∧ (e.status = .WAITING → (dec15 * msPerDay + 12 * msPerHour) ≤ e.date → e' = e)
            ∧ (e.status ≠ .WAITING → e' = e))
        expireDb.waitlist
        (expireOldEntries expireDb (dec15 * msPerDay + 12 * msPerHour)).2.waitlist :=
  ⟨by decide, expireOldEntries_characterization expireDb (dec15 * msPerDay + 12 * msPerHour)⟩

/-- C9: a token-authenticated guest update with a non-empty patch always
leaves the reservation `PENDING` afterwards, whatever its prior status
(the public controller always passes `setToPending = true`). -/
theorem updateByToken_resets_to_pending (db : Db) (token : Nat) (u : GuestUpdate)
    (r : Reservation)
    (hfind : db.reservations.find? (fun x => x.cancelToken == token) = some r)
    (hne : u.isEmpty = false) :
    ∃ r' db', updateByToken db token u true = .ok (r', db')
      ∧ r'.status = ReservationStatus.PENDING := by
  unfold updateByToken
  rw [hfind]
  simp only [hne, Bool.not_false, Bool.and_self, if_true]
  exact ⟨_, _, rfl, rfl⟩

def tokenDb : Db :=
  { reservations :=
      [{ id := 71, guestName := "C", email := "c@x.com", phone := "7",
         date := parseDateUTC dec15, time := 1140, partySize := 4,
         status := .CONFIRMED, source := .WEB, notes := none,
         cancelToken := 13, createdAt := 20400 * msPerDay }]
    waitlist := [] }

theorem updateByToken_resets_to_pending_witness :
    (tokenDb.reservations.find? (fun x => x.cancelToken == 13)
        = some (tokenDb.reservations.head (by decide)))
      ∧ (GuestUpdate.isEmpty ⟨none, none, some 3, none⟩) = false
      ∧ ∃ r' db', updateByToken tokenDb 13 ⟨none, none, some 3, none⟩ true = .ok (r', db')
          ∧ r'.status = ReservationStatus.PENDING :=
  ⟨rfl, rfl,
    updateByToken_resets_to_pending tokenDb 13 ⟨none, none, some 3, none⟩
      (tokenDb.reservations.head (by decide)) rfl rfl⟩

/-- C10: the staff-facing cancel has no precondition on the current
status — for any stored reservation (whatever its status) it returns the
record set to `CANCELLED` and the state produced by running the waitlist
promotion scan for that reservation's `(date, time)` slot on the
cancelled state; the distinct "already cancelled" rejection exists only
on the guest token path `cancelByToken`. -/
theorem cancelReservation_no_precondition (rules : BusinessRules) (db : Db)
    (now : Int) (freshId freshTok : Nat) :
    (∀ id r, db.reservations.find? (fun x => x.id == id) = some r →
        cancelReservation rules db id now freshId freshTok
          = .ok ({ r with status := ReservationStatus.CANCELLED },
              (tryPromoteNext rules
                { db with reservations := db.reservations.map (fun x =>
                    if x.id == id then { x with status := ReservationStatus.CANCELLED }
                    else x) }
                r.date r.time now freshId freshTok).2))
      ∧ (∀ token rc, db.reservations.find? (fun x => x.cancelToken == token) = some rc →
          rc.status = ReservationStatus.CANCELLED →
          cancelByToken rules db token now freshId freshTok
            = .error "Reservation already cancelled") := by
  constructor
  · intro id r hfind
    unfold cancelReservation
    rw [hfind]
  · intro token rc hfind hcanc
    unfold cancelByToken
    rw [hfind]
    simp [hcanc]

/-- Fixture for the C10 witness: a `SEATED` reservation (id 51) and an
already-`CANCELLED` reservation (token 52). -/
def cancelDb : Db :=
  { reservations :=
      [{ id := 51, guestName := "S", email := "s@x.com", phone := "5",
         date := parseDateUTC dec15, time := 1140, partySize := 4,
         status := .SEATED, source := .WEB, notes := none,
         cancelToken := 151, createdAt := 20400 * msPerDay },
       { id := 52, guestName := "Z", email := "z@x.com", phone := "5",
         date := parseDateUTC dec15, time := 1200, partySize := 2,
         status := .CANCELLED, source := .PHONE, notes := none,
         cancelToken := 152, createdAt := 20401 * msPerDay }]
    waitlist := [] }

theorem cancelReservation_no_precondition_witness :
    (∃ pr, cancelReservation defaultBusinessRules cancelDb 51 (20437 * msPerDay) 95 96
        = .ok pr ∧ pr.1.status = ReservationStatus.CANCELLED)
      ∧ cancelByToken defaultBusinessRules cancelDb 152 (20437 * msPerDay) 95 96
        = .error "Reservation already cancelled" := by
  have h := cancelReservation_no_precondition defaultBusinessRules cancelDb
    (20437 * msPerDay) 95 96
  refine ⟨⟨_, h.1 51 (cancelDb.reservations.head (by decide)) rfl, rfl⟩, ?_⟩
  exact h.2 152 (cancelDb.reservations.get ⟨1, by decide⟩) rfl rfl

theorem mem_waitingFor_status (db : Db) (dateMs : Int) (time : Nat)
    (e : WaitlistEntry) (h : e ∈ waitingFor db dateMs time) :
    e.status = .WAITING := by
  unfold waitingFor at h
  have hp := (List.mem_filter.mp h).2
  simp only [Bool.and_eq_true, beq_iff_eq] at hp
  exact hp.2

theorem forall₂_self (P : WaitlistEntry → WaitlistEntry → Prop) (l : List WaitlistEntry)
    (h : ∀ x ∈ l, P x x) : List.Forall₂ P l l := by
  induction l with
  | nil => exact List.Forall₂.nil
  | cons a t ih =>
      exact List.Forall₂.cons (h a (List.mem_cons_self a t))
        (ih (fun x hx => h x (List.mem_cons_of_mem a hx)))

/-- C8 (amended): the promotion and expiry machinery never moves an
entry out of `PROMOTED` or `EXPIRED`: `tryPromoteNext` only rewrites the
`WAITING` entry it promotes, and `expireOldEntries` only rewrites
`WAITING` entries — every non-`WAITING` entry is returned unchanged by
both.  The statuses are nonetheless not terminal against the whole
system: the staff `updateEntry` operation writes whatever status the
caller supplies, including `WAITING` on a `PROMOTED` or `EXPIRED` entry
(see the counterexample). -/
theorem promotion_and_expiry_preserve_terminal (rules : BusinessRules) (db : Db)
    (dateMs : Int) (time : Nat) (now : Int) (freshId freshTok : Nat)
    (hnodup : (db.waitlist.map (fun x => x.id)).Nodup) :
    List.Forall₂ (fun e e' => e.status ≠ .WAITING → e' = e) db.waitlist
        (expireOldEntries db now).2.waitlist
      ∧ List.Forall₂ (fun e e' => e.status ≠ .WAITING → e' = e) db.waitlist
        (tryPromoteNext rules db dateMs time now freshId freshTok).2.waitlist := by
  constructor
  · unfold expireOldEntries
    apply forall₂_map_self
    intro x _ hst
    have hb : (x.status == WaitlistStatus.WAITING) = false := by
      cases hs : x.status <;> simp_all
    simp [hb]
  · unfold tryPromoteNext
    by_cases hW : (List.insertionSort (fun a b => a.createdAt ≤ b.createdAt)
        (waitingFor db dateMs time)).isEmpty = true
    · rw [if_pos hW]
      exact forall₂_self _ _ (fun x _ _ => rfl)
    · rw [if_neg hW]
      simp only []
      cases hf : (List.insertionSort (fun a b => a.createdAt ≤ b.createdAt)
          (waitingFor db dateMs time)).find?
          (fun e => getCoversForTimeSlot db dateMs time + e.partySize
            ≤ rules.maxCoversPerTimeSlot) with
      | none =>
          exact forall₂_self _ _ (fun x _ _ => rfl)
      | some e0 =>
          have he0w : e0 ∈ waitingFor db dateMs time :=
            (List.perm_insertionSort _ _).mem_iff.mp (List.mem_of_find?_eq_some hf)
          have he0 : e0 ∈ db.waitlist := List.mem_of_mem_filter he0w
          have he0st : e0.status = .WAITING := mem_waitingFor_status db dateMs time e0 he0w
          refine forall₂_map_self _ _ _ ?_
          intro x hx hst
          have hidne : ¬ x.id = e0.id := by
            intro hid
            exact hst (by
              rw [List.inj_on_of_nodup_map hnodup hx he0 hid]
              exact he0st)
          simp [hidne]

def promotedEntryTerm : WaitlistEntry :=
  { id := 61, guestName := "M", email := none, phone := none, date := parseDateUTC dec15,
    time := 1140, partySize := 2, status := .PROMOTED, linkedReservationId := some 90,
    createdAt := 5, promotedAt := some 6 }

/-- Counterexample to C8 as stated: the staff `updateEntry` operation
(PATCH /api/waitlist/:id, whose schema admits status `WAITING`) moves a
`PROMOTED` entry back to `WAITING`. -/
theorem updateEntry_reverts_terminal_counterexample :
    promotedEntryTerm.status = .PROMOTED
      ∧ ∃ e' db', updateEntry ⟨[], [promotedEntryTerm]⟩ 61 ⟨some .WAITING, none⟩
          = .ok (e', db')
        ∧ e'.status = .WAITING
        ∧ db'.waitlist.map (fun e => e.status) = [.WAITING] :=
  ⟨rfl, _, _, rfl, rfl, by decide⟩

theorem promotion_and_expiry_preserve_terminal_witness :
    ((expireDb.waitlist.map (fun x => x.id)).Nodup)
      ∧ List.Forall₂ (fun e e' => e.status ≠ .WAITING → e' = e) expireDb.waitlist
          (expireOldEntries expireDb (dec15 * msPerDay)).2.waitlist
      ∧ List.Forall₂ (fun e e' => e.status ≠ .WAITING → e' = e) expireDb.waitlist
          (tryPromoteNext defaultBusinessRules expireDb (parseDateUTC dec15) 1140
            (dec15 * msPerDay) 97 98).2.waitlist :=
  ⟨by decide,
    (promotion_and_expiry_preserve_terminal defaultBusinessRules expireDb (parseDateUTC dec15)
      1140 (dec15 * msPerDay) 97 98 (by decide)).1,
    (promotion_and_expiry_preserve_terminal defaultBusinessRules expireDb (parseDateUTC dec15)
      1140 (dec15 * msPerDay) 97 98 (by decide)).2⟩

/-- C2 (amended): for a reservation stored with calendar day `day`
(`date = parseDateUTC day`, as the controller writes it), serialization
always reports the stored `time` verbatim and is independent of the
server time zone (only UTC getters are involved); the reported date is
the stored day — EXCEPT when the UTC calendar day of `createdAt` is
exactly `day + 1`, in which case `createdAt`'s day is reported instead
(the serializer's deliberate "+1 day createdAt fallback"). -/
theorem serializeReservation_roundtrip (r : Reservation) (day : Int)
    (hdate : r.date = parseDateUTC day) :
    (serializeReservation r).time = r.time
      ∧ (formatDateLocal r.createdAt ≠ day + 1 → (serializeReservation r).date = day)
      ∧ (formatDateLocal r.createdAt = day + 1 → (serializeReservation r).date = day + 1) := by
  have hs : (serializeReservation r).date
      = if formatDateLocal r.createdAt - day = 1 then formatDateLocal r.createdAt else day := by
    rw [show (serializeReservation r).date = serializeDate r.date r.createdAt from rfl, hdate]
    unfold serializeDate
    rw [formatDateLocal_parseDateUTC]
  refine ⟨rfl, ?_, ?_⟩
  · intro h
    rw [hs, if_neg (by omega)]
  · intro h
    rw [hs, if_pos (by omega), h]

def lateCreated : Reservation :=
  { id := 81, guestName := "L", email := "l@x.com", phone := "8", date := parseDateUTC dec15,
    time := 1140, partySize := 2, status := .CONFIRMED, source := .WEB, notes := none,
    cancelToken := 81, createdAt := (dec15 + 1) * msPerDay + msPerHour }

/-- Counterexample to C2 as stated: a reservation stored for 2025-12-15
whose row `createdAt` falls on 2025-12-16 UTC (for example a late-evening
local-time booking recorded after UTC midnight) is serialized with date
2025-12-16, not the "2025-12-15" it was created with. -/
theorem serializeReservation_roundtrip_counterexample :
    lateCreated.date = parseDateUTC dec15
      ∧ lateCreated.time = 1140
      ∧ (serializeReservation lateCreated).time = 1140
      ∧ (serializeReservation lateCreated).date = dec15 + 1
      ∧ (serializeReservation lateCreated).date ≠ dec15 :=
  ⟨rfl, rfl, rfl, by decide, by decide⟩

def normalCreated : Reservation :=
  { id := 82, guestName := "N", email := "n@x.com", phone := "9", date := parseDateUTC dec15,
    time := 1140, partySize := 2, status := .CONFIRMED, source := .WEB, notes := none,
    cancelToken := 82, createdAt := dec15 * msPerDay + 10 * msPerHour }

theorem serializeReservation_roundtrip_witness :
    formatDateLocal normalCreated.createdAt ≠ dec15 + 1
      ∧ (serializeReservation normalCreated).time = normalCreated.time
      ∧ (serializeReservation normalCreated).date = dec15 :=
  ⟨by decide,
    (serializeReservation_roundtrip normalCreated dec15 rfl).1,
    (serializeReservation_roundtrip normalCreated dec15 rfl).2.1 (by decide)⟩
